import Mathlib

/-!
Verification of the chatbot-app-go repository against its specification.

The repository visible under src/ contains the launcher `app.py` (function
`start_go_proxy`) and the integration test suite `test/test_app.py`.  The
service logic exercised by the tests (the chat API and the load-test
harness) is not present as source; following the specification, those
components are modelled here from the spec text, with each such definition
marked `Modelled from the spec:`.  The launcher `start_go_proxy` is embedded
directly from `src/app.py`.

Times, durations and rates are modelled as rational numbers.
-/

namespace ChatbotApp

/-! ## Data model (spec section 3) -/

/-- Modelled from the spec: `RequestOutcome` of the missing load-test
harness — the recorded result of one simulated chat request:
`{ succeeded : boolean, latency : duration }`.  Immutable once recorded.
The optional `error_kind` string plays no role in the claims and is
omitted from the embedding. -/
structure RequestOutcome where
  succeeded : Bool
  latency : ℚ
deriving DecidableEq, Repr

/-- Modelled from the spec: `LoadTestSummary` of the missing load-test
harness — the seven summary fields returned by the load-test endpoint,
each with its type: `test_duration` (seconds), three counts, a rate,
the configured user ceiling, and the aggregate latency statistic. -/
structure LoadTestSummary where
  test_duration : ℚ
  total_requests : ℕ
  successful_requests : ℕ
  failed_requests : ℕ
  requests_per_second : ℚ
  concurrent_users : ℤ
  response_time : ℚ
deriving DecidableEq, Repr

/-! ## Metrics Aggregator (spec section 4.5) -/

/-- Modelled from the spec: the running accumulation state of the missing
Metrics Aggregator: count of all outcomes, count of successes, and the
sum of all latencies. -/
structure AggState where
  total : ℕ
  successes : ℕ
  latencySum : ℚ
deriving DecidableEq, Repr

/-- Modelled from the spec: the missing Metrics Aggregator records one
`RequestOutcome` into its accumulation state (appends are atomic per
outcome; the accumulation over the append-only log is embedded as a fold). -/
def recordOutcome (st : AggState) (o : RequestOutcome) : AggState :=
  { total := st.total + 1
    successes := st.successes + (if o.succeeded then 1 else 0)
    latencySum := st.latencySum + o.latency }

/-- Modelled from the spec: the missing Metrics Aggregator reduces the
append-only outcome log to its final accumulation state. -/
def aggregate (outcomes : List RequestOutcome) : AggState :=
  outcomes.foldl recordOutcome ⟨0, 0, 0⟩

/-- Modelled from the spec: the missing Metrics Aggregator computes the
final `LoadTestSummary` from the outcome log and the run timestamps.
Elapsed time is measured from `startedAt` to `drainingAt` (the moment the
Draining phase begins).  `failed_requests` is total minus successful;
`requests_per_second` is total over elapsed; `response_time` is the
arithmetic mean over the latencies of all recorded outcomes, reported as
zero when no outcome was recorded (the division is guarded, never
evaluated on a zero count). -/
def makeSummary (users : ℤ) (startedAt drainingAt : ℚ)
    (outcomes : List RequestOutcome) : LoadTestSummary :=
  let st := aggregate outcomes
  let elapsed := drainingAt - startedAt
  { test_duration := elapsed
    total_requests := st.total
    successful_requests := st.successes
    failed_requests := st.total - st.successes
    requests_per_second := (st.total : ℚ) / elapsed
    concurrent_users := users
    response_time := if st.total = 0 then 0 else st.latencySum / (st.total : ℚ) }

/-! ## Run Controller (spec section 4.4) -/

/-- Modelled from the spec: `RunState` of the missing Run Controller —
per-run state: start timestamp, requested test duration, and the
append-only outcome log produced by the Virtual Users (the log each run
ends up with is a parameter of the embedding, since actual completion
order and counts depend on network timing). -/
structure RunState where
  startedAt : ℚ
  testTime : ℚ
  outcomes : List RequestOutcome
deriving DecidableEq, Repr

/-- Modelled from the spec: the run deadline, `started_at + test_time`. -/
def RunState.deadline (rs : RunState) : ℚ :=
  rs.startedAt + rs.testTime

/-- Modelled from the spec: the missing Run Controller transitions to the
Draining phase exactly when `test_time` has elapsed since `started_at`,
so Draining begins at the deadline. -/
def RunState.drainingAt (rs : RunState) : ℚ :=
  rs.deadline

/-- Modelled from the spec: the missing Run Controller hands its
`RunState` to the Metrics Aggregator at completion and returns the
summary. -/
def runSummary (users : ℤ) (rs : RunState) : LoadTestSummary :=
  makeSummary users rs.startedAt rs.drainingAt rs.outcomes

/-! ## Aggregator lemmas -/

theorem foldl_recordOutcome_total (init : AggState)
    (outcomes : List RequestOutcome) :
    (outcomes.foldl recordOutcome init).total = init.total + outcomes.length := by
  induction outcomes generalizing init with
  | nil => simp
  | cons o rest ih =>
      simp only [List.foldl_cons, List.length_cons, ih, recordOutcome]
      omega

theorem foldl_recordOutcome_successes (init : AggState)
    (outcomes : List RequestOutcome) :
    (outcomes.foldl recordOutcome init).successes =
      init.successes + (outcomes.filter (fun o => o.succeeded)).length := by
  induction outcomes generalizing init with
  | nil => simp
  | cons o rest ih =>
      simp only [List.foldl_cons, List.filter_cons, ih, recordOutcome]
      by_cases h : o.succeeded
      · simp [h]
        omega
      · simp [h]

theorem foldl_recordOutcome_latencySum (init : AggState)
    (outcomes : List RequestOutcome) :
    (outcomes.foldl recordOutcome init).latencySum =
      init.latencySum + (outcomes.map RequestOutcome.latency).sum := by
  induction outcomes generalizing init with
  | nil => simp
  | cons o rest ih =>
      simp only [List.foldl_cons, List.map_cons, List.sum_cons, ih, recordOutcome]
      ring

theorem aggregate_total (outcomes : List RequestOutcome) :
    (aggregate outcomes).total = outcomes.length := by
  simp [aggregate, foldl_recordOutcome_total]

theorem aggregate_successes (outcomes : List RequestOutcome) :
    (aggregate outcomes).successes =
      (outcomes.filter (fun o => o.succeeded)).length := by
  simp [aggregate, foldl_recordOutcome_successes]

theorem aggregate_latencySum (outcomes : List RequestOutcome) :
    (aggregate outcomes).latencySum =
      (outcomes.map RequestOutcome.latency).sum := by
  simp [aggregate, foldl_recordOutcome_latencySum]

theorem aggregate_successes_le_total (outcomes : List RequestOutcome) :
    (aggregate outcomes).successes ≤ (aggregate outcomes).total := by
  rw [aggregate_total, aggregate_successes]
  exact List.length_filter_le _ _

/-! ## Ramp Scheduler (spec section 4.2) -/

/-- Modelled from the spec: the missing Ramp Scheduler converts
`(users, spawn_rate)` into the ordered sequence of activation offsets,
one per virtual user, relative to run start: the k-th user (0-indexed)
activates at `k / spawn_rate` seconds.  It is a pure function of
`(users, spawn_rate)` alone — it does not take `test_time`, so every
user receives an offset even when that offset exceeds the test duration,
and there is no source of randomness. -/
def rampSchedule (users : ℕ) (spawn_rate : ℚ) : List ℚ :=
  (List.range users).map (fun k : ℕ => (k : ℚ) / spawn_rate)

/-! ## Virtual User (spec sections 4.3 and 5) -/

/-- One simulated request in a Virtual User trace: the request index
within this user's loop, its start time, and its completion time. -/
structure TracedRequest where
  index : ℕ
  startTime : ℚ
  endTime : ℚ
deriving DecidableEq, Repr

/-- Modelled from the spec: the run-scoped cancellation signal, set once
by the missing Run Controller at the deadline and observed cooperatively
afterwards: at time `t` the signal is set iff `deadline ≤ t`. -/
def cancelled (deadline t : ℚ) : Bool :=
  deadline ≤ t

/-- Modelled from the spec: the request-issuing loop of the missing
Virtual User.  `dur n` is the natural duration of this user's n-th
request (network timing, an environment parameter).  Before starting
each new request the loop observes the cancellation signal and stops if
it is set; otherwise it issues the request, which runs to its natural
completion time `t + dur n` (never forcibly aborted mid-request), and
the loop continues from that completion time.  `fuel` bounds the number
of iterations so the embedding is structurally recursive; the claims
hold for every fuel value. -/
def vuLoop (deadline : ℚ) (dur : ℕ → ℚ) :
    ℕ → ℕ → ℚ → List TracedRequest
  | 0, _, _ => []
  | fuel + 1, n, t =>
      if cancelled deadline t then []
      else ⟨n, t, t + dur n⟩ :: vuLoop deadline dur fuel (n + 1) (t + dur n)

/-! ## API Layer (spec sections 4.1 and 6) -/

/-- Modelled from the spec: the response of the load-test endpoint as
the API layer produces it: an HTTP status, an optional summary body
(present exactly on success), and the number of chat requests issued
while handling the call (zero when no run is started). -/
structure LoadTestResponse where
  status : ℕ
  body : Option LoadTestSummary
  chatRequests : ℕ
deriving DecidableEq, Repr

/-- Modelled from the spec: the parameter validator of the missing API
layer: `users` must be a positive integer (at least 1), `spawn_rate` a
positive number, `test_time` a positive number. -/
def validParams (users : ℤ) (spawn_rate test_time : ℚ) : Bool :=
  1 ≤ users ∧ 0 < spawn_rate ∧ 0 < test_time

/-- Modelled from the spec: the missing `GET /api/load-test` handler.
On valid parameters it runs the load test synchronously and returns 200
with the summary; the outcome log the run produces depends on network
timing, so it enters the embedding as the `outcomes` parameter together
with the run start time.  On invalid parameters it returns 400 with no
body, without starting a run — no chat traffic is performed. -/
def loadTestEndpoint (users : ℤ) (spawn_rate test_time : ℚ)
    (startedAt : ℚ) (outcomes : List RequestOutcome) : LoadTestResponse :=
  if validParams users spawn_rate test_time then
    let rs : RunState := ⟨startedAt, test_time, outcomes⟩
    { status := 200
      body := some (runSummary users rs)
      chatRequests := outcomes.length }
  else
    { status := 400, body := none, chatRequests := 0 }

/-- Modelled from the spec: the missing `POST /api/chat` handler over a
JSON object embedded as an association list of string fields.  A body
with a `message` string field yields 200 and a JSON body containing
`content`; a body lacking the required `message` field (for example one
holding only an unrecognized field) yields 400 with no `content` field.
The content-generation logic is unspecified by the spec; the embedding
returns an acknowledgement string built from the message. -/
def chatEndpoint (body : List (String × String)) : ℕ × Option String :=
  match body.lookup "message" with
  | some msg => (200, some ("echo: " ++ msg))
  | none => (400, none)

end ChatbotApp

namespace AppPy

/-! ## `start_go_proxy` (src/app.py lines 16-30) -/

/-- The result of `subprocess.run`: a completed process with its exit
status and captured output (`capture_output=True, text=True`). -/
structure CompletedProcess where
  returncode : ℤ
  stdout : String
  stderr : String
deriving DecidableEq, Repr

/-- Observable events of one `start_go_proxy` call, in order: the chmod
of the executable, the start and the termination of the child process,
and log lines.  `subprocess.run` is blocking: it returns only once the
child has terminated, so `processExit` is recorded before the function
continues. -/
inductive Event where
  | chmod
  | processStart
  | processExit (returncode : ℤ)
  | logInfo (msg : String)
  | logError (msg : String)
deriving DecidableEq, Repr

/-- The effects the host system supplies to one `start_go_proxy` call:
what `os.chmod` on the `main` executable does (raises on a missing
file), and what the blocking `subprocess.run([go_executable], ...)` call
does (returns the completed process after the child exits, or raises). -/
structure ProxyEnv where
  chmodResult : Except String Unit
  runResult : Except String CompletedProcess

/-- Embedding of `start_go_proxy` from src/app.py.  `os.chmod` is called
outside the `try` block, so an exception there propagates out of the
function.  Inside the `try`, `subprocess.run` blocks until the child
process terminates; then `logging.info("Go proxy server started
successfully")` runs unconditionally (the return code is not inspected)
and the completed process is returned.  An exception from
`subprocess.run` is caught, logged as an error, and `None` is returned.
The result is the returned value (or the propagated exception) paired
with the ordered event trace. -/
def start_go_proxy (env : ProxyEnv) :
    Except String (Option CompletedProcess) × List Event :=
  match env.chmodResult with
  | .error e => (.error e, [])
  | .ok _ =>
      match env.runResult with
      | .ok p =>
          (.ok (some p),
            [Event.chmod, Event.processStart, Event.processExit p.returncode,
             Event.logInfo "Go proxy server started successfully"])
      | .error e =>
          (.ok none,
            [Event.chmod, Event.processStart,
             Event.logError ("Failed to start Go proxy: " ++ e)])

end AppPy

namespace ChatbotApp

/-! ## Claim theorems for the load-test harness and chat endpoint -/

/-- C1: for every load-test request with `users ≥ 1`, `spawn_rate > 0`
and `test_time > 0`, the load-test endpoint returns status 200 and a
body containing all seven summary fields — the body is a
`LoadTestSummary`, whose structure type carries exactly the seven fields
`test_duration`, `total_requests`, `successful_requests`,
`failed_requests`, `requests_per_second`, `concurrent_users` and
`response_time`, each of the correct type. -/
theorem loadTest_valid_returns_summary (users : ℤ)
    (spawn_rate test_time startedAt : ℚ) (outcomes : List RequestOutcome)
    (hu : 1 ≤ users) (hs : 0 < spawn_rate) (ht : 0 < test_time) :
    (loadTestEndpoint users spawn_rate test_time startedAt outcomes).status = 200 ∧
    ∃ s : LoadTestSummary,
      (loadTestEndpoint users spawn_rate test_time startedAt outcomes).body = some s := by
  simp [loadTestEndpoint, validParams, hu, hs, ht]

/-- Witness for C1: the test suite request `users = 10`,
`spawn_rate = 2`, `test_time = 5` receives a 200 and a summary body. -/
theorem loadTest_valid_returns_summary_witness :
    (loadTestEndpoint 10 2 5 0 []).status = 200 ∧
    ∃ s : LoadTestSummary, (loadTestEndpoint 10 2 5 0 []).body = some s :=
  loadTest_valid_returns_summary 10 2 5 0 [] (by decide) (by decide) (by decide)

/-- C2: for every load-test request in which `users ≤ 0`, or
`spawn_rate ≤ 0`, or `test_time ≤ 0`, the endpoint returns status 400,
no summary body, and zero chat requests are issued: no run is started
and no chat traffic is performed. -/
theorem loadTest_invalid_returns_400 (users : ℤ)
    (spawn_rate test_time startedAt : ℚ) (outcomes : List RequestOutcome)
    (h : users ≤ 0 ∨ spawn_rate ≤ 0 ∨ test_time ≤ 0) :
    (loadTestEndpoint users spawn_rate test_time startedAt outcomes).status = 400 ∧
    (loadTestEndpoint users spawn_rate test_time startedAt outcomes).body = none ∧
    (loadTestEndpoint users spawn_rate test_time startedAt outcomes).chatRequests = 0 := by
  have hv : validParams users spawn_rate test_time = false := by
    simp only [validParams, decide_eq_false_iff_not, not_and_or]
    rcases h with h | h | h
    · exact Or.inl (by omega)
    · exact Or.inr (Or.inl (not_lt.mpr h))
    · exact Or.inr (Or.inr (not_lt.mpr h))
  simp [loadTestEndpoint, hv]

/-- Witness for C2: the test suite request `users = -1`,
`spawn_rate = 2`, `test_time = 5` receives a 400, no body, and causes
zero chat requests. -/
theorem loadTest_invalid_returns_400_witness :
    (loadTestEndpoint (-1) 2 5 0 []).status = 400 ∧
    (loadTestEndpoint (-1) 2 5 0 []).body = none ∧
    (loadTestEndpoint (-1) 2 5 0 []).chatRequests = 0 :=
  loadTest_invalid_returns_400 (-1) 2 5 0 [] (Or.inl (by decide))

/-- C3: for every completed run, the summary satisfies
`total_requests = successful_requests + failed_requests`, where
`total_requests` counts all recorded outcomes and `successful_requests`
counts the outcomes with `succeeded = true`. -/
theorem summary_total_eq_success_add_failed (users : ℤ) (rs : RunState) :
    (runSummary users rs).total_requests =
      (runSummary users rs).successful_requests +
        (runSummary users rs).failed_requests ∧
    (runSummary users rs).total_requests = rs.outcomes.length ∧
    (runSummary users rs).successful_requests =
      (rs.outcomes.filter (fun o => o.succeeded)).length := by
  have hle := aggregate_successes_le_total rs.outcomes
  refine ⟨?_, ?_, ?_⟩
  · simp only [runSummary, makeSummary]
    omega
  · simp [runSummary, makeSummary, aggregate_total]
  · simp [runSummary, makeSummary, aggregate_successes]

/-- C4: for every completed run, `requests_per_second` equals
`total_requests` divided by the elapsed seconds measured from
`started_at` to the moment Draining begins; the Run Controller begins
Draining exactly at `started_at + test_time`, so this elapsed time
equals `test_time` (the reported `test_duration`), independent of any
wall time spent aggregating. -/
theorem summary_requests_per_second (users : ℤ) (rs : RunState) :
    (runSummary users rs).requests_per_second =
      ((runSummary users rs).total_requests : ℚ) /
        (rs.drainingAt - rs.startedAt) ∧
    rs.drainingAt - rs.startedAt = rs.testTime ∧
    (runSummary users rs).test_duration = rs.testTime ∧
    (runSummary users rs).requests_per_second =
      ((runSummary users rs).total_requests : ℚ) /
        (runSummary users rs).test_duration := by
  refine ⟨rfl, by simp [RunState.drainingAt, RunState.deadline], ?_, rfl⟩
  simp [runSummary, makeSummary, RunState.drainingAt, RunState.deadline]

/-- C5: for every `users ≥ 1` and `spawn_rate > 0`, the Ramp Scheduler
produces exactly `users` activation offsets, in FIFO order of user
index, with the k-th (0-indexed) offset equal to `k / spawn_rate`
seconds.  `rampSchedule` is a function of `(users, spawn_rate)` alone —
it takes no `test_time` argument and uses no randomness, so the count is
`users` even when an offset exceeds the test duration, and the schedule
is deterministic. -/
theorem rampSchedule_spec (users : ℕ) (spawn_rate : ℚ)
    (hu : 1 ≤ users) (hs : 0 < spawn_rate) :
    (rampSchedule users spawn_rate).length = users ∧
    ∀ k (h : k < (rampSchedule users spawn_rate).length),
      (rampSchedule users spawn_rate).get ⟨k, h⟩ = (k : ℚ) / spawn_rate := by
  constructor
  · rw [rampSchedule, List.length_map, List.length_range]
  · intro k h
    rw [List.get_eq_getElem]
    simp only [rampSchedule, List.getElem_map, List.getElem_range]

/-- Witness for C5: three users at spawn rate 2 get the three offsets
0, 1/2 and 1. -/
theorem rampSchedule_spec_witness :
    (rampSchedule 3 2).length = 3 ∧
    ∀ k (h : k < (rampSchedule 3 2).length),
      (rampSchedule 3 2).get ⟨k, h⟩ = (k : ℚ) / 2 :=
  rampSchedule_spec 3 2 (by decide) (by decide)

/-- C6: every request a Virtual User ever issues is started strictly
before the deadline, at a moment where the cancellation signal — set by
the Run Controller at the deadline — is not yet observed (the signal is
checked before each new request attempt), and runs to its natural
completion time `start + dur`, even when that completion time falls
after the deadline: an in-flight request is never forcibly aborted. -/
theorem vuLoop_no_request_after_cancel (deadline : ℚ) (dur : ℕ → ℚ)
    (fuel n : ℕ) (t : ℚ) (r : TracedRequest)
    (hr : r ∈ vuLoop deadline dur fuel n t) :
    cancelled deadline r.startTime = false ∧
    r.startTime < deadline ∧
    r.endTime = r.startTime + dur r.index := by
  induction fuel generalizing n t with
  | zero => simp [vuLoop] at hr
  | succ fuel ih =>
      rw [vuLoop] at hr
      by_cases h : cancelled deadline t = true
      · simp [h] at hr
      · rw [if_neg (by simp [h])] at hr
        rcases List.mem_cons.mp hr with rfl | hmem
        · have ht : ¬ deadline ≤ t := by
            simpa [cancelled] using h
          exact ⟨by simpa [cancelled] using ht, by linarith [lt_of_not_le ht], rfl⟩
        · exact ih (n + 1) (t + dur n) hmem

/-- Witness for C6: with deadline 5 and each request taking 2 time
units, the request the user issues at time 0 starts while the
cancellation signal is unset and completes at its natural end time. -/
theorem vuLoop_no_request_after_cancel_witness :
    cancelled 5 (0 : ℚ) = false ∧
    (0 : ℚ) < 5 ∧
    (0 : ℚ) + 2 = 0 + 2 :=
  vuLoop_no_request_after_cancel 5 (fun _ => 2) 1 0 0 ⟨0, 0, 0 + 2⟩
    (List.Mem.head _)

/-- C7: a run with zero recorded outcomes reports `response_time = 0`
(the guarded division is never evaluated on a zero count), and a run
with at least one outcome reports `response_time` equal to the
arithmetic mean of the latencies of all recorded outcomes, successes
and failures alike. -/
theorem summary_response_time (users : ℤ) (rs : RunState) :
    (rs.outcomes = [] → (runSummary users rs).response_time = 0) ∧
    (rs.outcomes ≠ [] →
      (runSummary users rs).response_time =
        (rs.outcomes.map RequestOutcome.latency).sum /
          (rs.outcomes.length : ℚ)) := by
  constructor
  · intro h
    simp [runSummary, makeSummary, aggregate_total, h]
  · intro h
    have hlen : rs.outcomes.length ≠ 0 :=
      fun hz => h (List.length_eq_zero.mp hz)
    simp [runSummary, makeSummary, aggregate_total, aggregate_latencySum, hlen]

/-- Witness for C7: the empty run reports response time 0; a run with a
success of latency 3 and a failure of latency 5 reports the mean over
both. -/
theorem summary_response_time_witness :
    (runSummary 1 ⟨0, 5, []⟩).response_time = 0 ∧
    (runSummary 1 ⟨0, 5, [⟨true, 3⟩, ⟨false, 5⟩]⟩).response_time =
      (([⟨true, 3⟩, ⟨false, 5⟩] : List RequestOutcome).map
          RequestOutcome.latency).sum /
        ((([⟨true, 3⟩, ⟨false, 5⟩] : List RequestOutcome).length : ℚ)) :=
  ⟨(summary_response_time 1 ⟨0, 5, []⟩).1 rfl,
   (summary_response_time 1 ⟨0, 5, [⟨true, 3⟩, ⟨false, 5⟩]⟩).2 (by decide)⟩

/-- C8: a chat request whose JSON body lacks the required `message`
field receives status 400 and a response with no `content` field. -/
theorem chat_missing_message_400 (body : List (String × String))
    (h : body.lookup "message" = none) :
    (chatEndpoint body).1 = 400 ∧ (chatEndpoint body).2 = none := by
  simp [chatEndpoint, h]

/-- Witness for C8: the test suite body holding only the unrecognized
field `invalid_field` receives a 400 with no content. -/
theorem chat_missing_message_400_witness :
    (chatEndpoint [("invalid_field", "This should fail")]).1 = 400 ∧
    (chatEndpoint [("invalid_field", "This should fail")]).2 = none :=
  chat_missing_message_400 [("invalid_field", "This should fail")] (by decide)

end ChatbotApp

namespace AppPy

/-! ## Claim theorems for `start_go_proxy` (src/app.py) -/

/-- C9: when the chmod succeeds and the subprocess call returns a
completed process, `start_go_proxy` returns that process and its event
trace records, in order, the chmod, the process start, the process
termination, and only then the success log line — `subprocess.run` with
`capture_output` blocks until the child exits, so the function returns
and logs `Go proxy server started successfully` only after the process
has already exited, never concurrently with it, and it does so for
every return code, the log not depending on the exit status. -/
theorem start_go_proxy_blocks_until_exit (env : ProxyEnv)
    (p : CompletedProcess)
    (hc : env.chmodResult = .ok ()) (hr : env.runResult = .ok p) :
    (start_go_proxy env).1 = .ok (some p) ∧
    (start_go_proxy env).2 =
      [Event.chmod, Event.processStart, Event.processExit p.returncode,
       Event.logInfo "Go proxy server started successfully"] := by
  simp [start_go_proxy, hc, hr]

/-- Witness for C9: a child process that exits with the failure code 1
still produces the success log line, strictly after its exit event. -/
theorem start_go_proxy_blocks_until_exit_witness :
    (start_go_proxy ⟨.ok (), .ok ⟨1, "out", "err"⟩⟩).1 =
      .ok (some ⟨1, "out", "err"⟩) ∧
    (start_go_proxy ⟨.ok (), .ok ⟨1, "out", "err"⟩⟩).2 =
      [Event.chmod, Event.processStart, Event.processExit 1,
       Event.logInfo "Go proxy server started successfully"] :=
  start_go_proxy_blocks_until_exit ⟨.ok (), .ok ⟨1, "out", "err"⟩⟩
    ⟨1, "out", "err"⟩ rfl rfl

/-- C10: `os.chmod` is called outside the `try` block of
`start_go_proxy`, so an exception it raises (for example because the
`main` executable does not exist) propagates out of the function; the
function returns `None` only when the subprocess call itself raised —
whenever it returns `None`, the chmod had succeeded and `subprocess.run`
raised an exception, so a missing executable never yields `None`. -/
theorem start_go_proxy_none_only_from_run (env : ProxyEnv) :
    (∀ e, env.chmodResult = .error e → (start_go_proxy env).1 = .error e) ∧
    ((start_go_proxy env).1 = .ok none →
      env.chmodResult = .ok () ∧ ∃ e, env.runResult = .error e) := by
  constructor
  · intro e he
    simp [start_go_proxy, he]
  · intro hnone
    rcases hc : env.chmodResult with e | u
    · simp [start_go_proxy, hc] at hnone
    · rcases hr : env.runResult with e | p
      · exact ⟨by simp [hc], e, by simp [hr]⟩
      · simp [start_go_proxy, hc, hr] at hnone

/-- Witness for C10: a failing chmod propagates its exception, and a
`None` return implies the subprocess call raised. -/
theorem start_go_proxy_none_only_from_run_witness :
    (start_go_proxy ⟨.error "chmod failed", .ok ⟨0, "", ""⟩⟩).1 =
      .error "chmod failed" ∧
    ((Except.ok () : Except String Unit) = .ok () ∧
      ∃ e, (Except.error "spawn refused" : Except String CompletedProcess) =
        .error e) :=
  ⟨(start_go_proxy_none_only_from_run
      ⟨.error "chmod failed", .ok ⟨0, "", ""⟩⟩).1 "chmod failed" rfl,
   (start_go_proxy_none_only_from_run ⟨.ok (), .error "spawn refused"⟩).2 rfl⟩

end AppPy
